import Mathlib

/-!
Verification of the ZMK split-keyboard BLE central module
(`src/app/src/split/bluetooth/central.c`).

The C module is shallowly embedded: each handler becomes a pure function
from its explicit inputs (the module's static state plus the values the
Bluetooth stack would hand in or return) to its new state and the list of
externally visible actions.  Results of external stack calls
(`bt_gatt_discover`, `bt_gatt_subscribe`, `bt_conn_le_create`, ...) are
passed in as parameters, since the stack is an external collaborator.
-/

namespace ZmkSplitCentral

/-- `POSITION_STATE_DATA_LEN` from central.c line 26. -/
def POSITION_STATE_DATA_LEN : Nat := 16

/-- A decoded key-state change, mirroring `struct position_state_changed`
(`position` = key index, `state` = pressed). -/
structure PositionEvent where
  position : Nat
  state : Bool
deriving DecidableEq, Repr

/-- The bitmap-diff decoder: the two loops of `split_central_notify_func`
(central.c lines 50-68).  `changed_positions[i] = data[i] ^ position_state[i]`,
then for each byte `i` and bit `j` with the changed bit set, an event with
`position = i*8 + j` and `pressed = bit j of the new byte i` is raised.
Bytes are read as `data[i]` for `i < 16` (`getD i 0`). -/
def decode (prev cur : List Nat) : List PositionEvent :=
  (List.range POSITION_STATE_DATA_LEN).flatMap (fun i =>
    (List.range 8).filterMap (fun j =>
      if (cur.getD i 0 ^^^ prev.getD i 0).testBit j then
        some ⟨i * 8 + j, (cur.getD i 0).testBit j⟩
      else none))

/-- Return value of a GATT notify callback: `BT_GATT_ITER_STOP` or
`BT_GATT_ITER_CONTINUE`. -/
inductive GattIter
  | stop
  | cont
deriving DecidableEq, Repr

/-- Result of one run of `split_central_notify_func`: the values of the
static `position_state` array and `params->value_handle` afterwards, the
events raised, and the iterator return value. -/
structure NotifyResult where
  positionState : List Nat
  valueHandle : Nat
  events : List PositionEvent
  iter : GattIter
deriving DecidableEq, Repr

/-- `split_central_notify_func` (central.c lines 34-72).
`positionState` is the static `position_state` array, `valueHandle` is
`params->value_handle`, `data` is the notification payload (`none` models a
NULL `data` pointer).  Note that the C function never consults `length`:
when `data` is non-NULL it always reads and diffs the first 16 bytes. -/
def split_central_notify_func (positionState : List Nat) (valueHandle : Nat)
    (data : Option (List Nat)) (length : Nat) : NotifyResult :=
  match data with
  | none => ⟨positionState, 0, [], .stop⟩
  | some d =>
      ⟨(List.range POSITION_STATE_DATA_LEN).map (fun i => d.getD i 0),
       valueHandle, decode positionState d, .cont⟩

/-- The `EALREADY` errno value; the code checks `err != -EALREADY`
(central.c line 116). -/
def EALREADY : Int := 114

/-- The subscription-related static state of the module: the static
`position_state` array of `split_central_notify_func`, the
`subscribe_params.value_handle` and `subscribe_params.ccc_handle` fields,
and whether the stack currently holds the subscription live. -/
structure SubState where
  positionState : List Nat
  valueHandle : Nat
  cccHandle : Nat
  active : Bool
deriving DecidableEq, Repr

/-- Modelled from the spec: the transport's subscribe capability (spec
section 6); Zephyr's `bt_gatt_subscribe` is not part of this repository.
A repeated subscribe on already-subscribed parameters reports
`-EALREADY` and does not create a second subscription; otherwise the
subscription becomes active, unless the stack reports the error
`stackErr`. -/
def bt_gatt_subscribe (s : SubState) (stackErr : Int) : SubState × Int :=
  if s.active then (s, -EALREADY)
  else if stackErr ≠ 0 then (s, stackErr)
  else ({s with active := true}, 0)

/-- Modelled from the spec: notification delivery by the transport (spec
sections 5 and 6); the notify callback runs only while the subscription
is live, and a `BT_GATT_ITER_STOP` return removes the subscription so
later payloads on the handle are not delivered until a new subscribe. -/
def deliverNotification (s : SubState) (data : Option (List Nat)) (length : Nat) :
    SubState × List PositionEvent :=
  if s.active then
    let r := split_central_notify_func s.positionState s.valueHandle data length
    ({ positionState := r.positionState, valueHandle := r.valueHandle,
       cccHandle := s.cccHandle,
       active := match r.iter with | .stop => false | .cont => true }, r.events)
  else (s, [])

/-- Which target UUID the module's `uuid` variable holds during discovery,
set in lockstep with `discover_params.type`: the split service UUID
(`BT_GATT_DISCOVER_PRIMARY`), the position-state characteristic UUID
(`BT_GATT_DISCOVER_CHARACTERISTIC`), or the CCC descriptor UUID
(`BT_GATT_DISCOVER_DESCRIPTOR`).  `split_central_discovery_func`
dispatches on this value (central.c lines 88, 98, 110). -/
inductive DiscoverPhase
  | primary
  | characteristic
  | descriptor
deriving DecidableEq, Repr

/-- The live fields of `bt_gatt_discover_params`: the target UUID (as the
phase it stands for), `start_handle` and `end_handle`. -/
structure DiscoverParams where
  phase : DiscoverPhase
  startHandle : Nat
  endHandle : Nat
deriving DecidableEq, Repr

/-- A discovered attribute as handed to the discovery callback: its handle
and, for a characteristic declaration, the value handle that
`bt_gatt_attr_value_handle` extracts (central.c line 104). -/
structure GattAttr where
  handle : Nat
  valueHandle : Nat
deriving DecidableEq, Repr

/-- Result of one run of `split_central_discovery_func`: the discover
params afterwards (`none` models the `memset(params, 0, ...)` on
completion), the subscription state, whether `bt_gatt_discover` was
issued, whether an error was logged, whether `[SUBSCRIBED]` was logged,
whether scanning was restarted, and the iterator return value. -/
structure DiscoveryOutcome where
  params : Option DiscoverParams
  sub : SubState
  discoverIssued : Bool
  errorLogged : Bool
  subscribedLogged : Bool
  scanRestarted : Bool
  iter : GattIter
deriving DecidableEq, Repr

/-- `split_central_discovery_func` (central.c lines 74-126).  `attr = none`
models a NULL attribute (end of walk).  `discoverErr` is the value the
external `bt_gatt_discover` call would return when issued, and
`subStackErr` the stack-side error for a fresh `bt_gatt_subscribe`. -/
def split_central_discovery_func (params : DiscoverParams) (attr : Option GattAttr)
    (discoverErr subStackErr : Int) (sub : SubState) : DiscoveryOutcome :=
  match attr with
  | none => ⟨none, sub, false, false, false, false, .stop⟩
  | some a =>
    match params.phase with
    | .primary =>
        ⟨some ⟨.characteristic, a.handle + 1, params.endHandle⟩, sub, true,
         decide (discoverErr ≠ 0), false, false, .stop⟩
    | .characteristic =>
        ⟨some ⟨.descriptor, a.handle + 2, params.endHandle⟩,
         {sub with valueHandle := a.valueHandle}, true,
         decide (discoverErr ≠ 0), false, false, .stop⟩
    | .descriptor =>
        let res := bt_gatt_subscribe {sub with cccHandle := a.handle} subStackErr
        if res.2 ≠ 0 ∧ res.2 ≠ -EALREADY then
          ⟨some params, res.1, false, true, false, false, .stop⟩
        else
          ⟨some params, res.1, false, false, true, false, .stop⟩

/-- The module-level mutable state relevant to the connection lifecycle:
`default_conn` (`none` = NULL), the discovery cursor, and the
subscription state.  Connections are identified by opaque numbers. -/
structure CentralState where
  defaultConn : Option Nat
  discoverParams : Option DiscoverParams
  sub : SubState
deriving DecidableEq, Repr

/-- The externally visible calls the module makes into the stack, in
program order. -/
inductive CentralAction
  | scanStop
  | connLookup
  | connCreate
  | connUnref
  | phyUpdate (conn : Option Nat)
  | scanStart
  | logError
  | setSecurity
  | discover
  | connInfo
deriving DecidableEq, Repr

/-- `split_central_process_connection` (central.c lines 128-158):
request security level 2 (failure: log and return); if the connection is
the tracked one, arm the discovery params with the full handle range,
primary type and the service-UUID target and issue `bt_gatt_discover`
(failure: log and return); finally query connection info for logging.
`securityErr` / `discoverErr` are the external calls' return values. -/
def split_central_process_connection (st : CentralState) (conn : Nat)
    (securityErr discoverErr : Int) : CentralState × List CentralAction :=
  if securityErr ≠ 0 then (st, [.setSecurity, .logError])
  else if st.defaultConn = some conn then
    let st1 := {st with discoverParams := some ⟨.primary, 1, 65535⟩}
    if discoverErr ≠ 0 then (st1, [.setSecurity, .discover, .logError])
    else (st1, [.setSecurity, .discover, .connInfo])
  else (st, [.setSecurity, .connInfo])

/-- `split_central_connected` (central.c lines 260-279): on a connect
error, unref the tracked handle, set it to NULL and restart scanning;
otherwise process the connection. -/
def split_central_connected (st : CentralState) (conn : Nat) (connErr : Nat)
    (securityErr discoverErr : Int) : CentralState × List CentralAction :=
  if connErr ≠ 0 then ({st with defaultConn := none}, [.logError, .connUnref, .scanStart])
  else split_central_process_connection st conn securityErr discoverErr

/-- `split_central_disconnected` (central.c lines 281-297): if the
disconnected handle is not the tracked one, return without any effect;
otherwise unref it, set `default_conn` to NULL and restart scanning. -/
def split_central_disconnected (st : CentralState) (conn : Nat) :
    CentralState × List CentralAction :=
  if st.defaultConn ≠ some conn then (st, [])
  else ({st with defaultConn := none}, [.connUnref, .scanStart])

/-- The return values of the external calls made while handling a matched
advertisement: `bt_le_scan_stop`, `bt_conn_lookup_addr_le` (the existing
connection, if any), `bt_conn_le_create` (its error, and the connection it
stores into `default_conn` on success), `bt_conn_le_phy_update`, and the
calls made by `split_central_process_connection` on an existing
connection. -/
structure EirInputs where
  scanStopErr : Int
  existingConn : Option Nat
  createErr : Int
  createdConn : Option Nat
  phyErr : Int
  securityErr : Int
  discoverErr : Int
deriving DecidableEq, Repr

/-- The matched-UUID arm of `split_central_eir_found` (central.c lines
195-223), reached once an advertised 128-bit UUID equals the split
service UUID: stop scanning (failure: log and move on), look up an
existing connection to the peer; if found, process it; otherwise create a
connection (failure: log and restart scanning — note `default_conn` stays
NULL), then unconditionally request a 2M PHY update on `default_conn`
(failure: log and restart scanning). -/
def split_central_eir_found_match (st : CentralState) (inp : EirInputs) :
    CentralState × List CentralAction :=
  if inp.scanStopErr ≠ 0 then (st, [.scanStop, .logError])
  else
    match inp.existingConn with
    | some c =>
        let st1 := {st with defaultConn := some c}
        let r := split_central_process_connection st1 c inp.securityErr inp.discoverErr
        (r.1, .scanStop :: .connLookup :: r.2)
    | none =>
        if inp.createErr ≠ 0 then
          let st1 := {st with defaultConn := none}
          (st1, [.scanStop, .connLookup, .connCreate, .logError, .scanStart,
                 .phyUpdate none] ++
                (if inp.phyErr ≠ 0 then [.logError, .scanStart] else []))
        else
          let st1 := {st with defaultConn := inp.createdConn}
          (st1, [.scanStop, .connLookup, .connCreate, .phyUpdate inp.createdConn] ++
                (if inp.phyErr ≠ 0 then [.logError, .scanStart] else []))

/-! ## Concrete states and payloads used by the counterexamples -/

/-- The module's state at boot: all statics zero-initialised, nothing
subscribed. -/
def initialSubState : SubState :=
  ⟨List.replicate POSITION_STATE_DATA_LEN 0, 0, 0, false⟩

/-- A 16-byte payload with only key position 0 pressed. -/
def payloadA : List Nat := 1 :: List.replicate 15 0

/-- A 17-byte payload (length mismatch) with byte 0 = 1. -/
def payload17 : List Nat := 1 :: List.replicate 16 0

/-- C5 scenario, step 0: subscribe at boot. -/
def c5sub1 : SubState := (bt_gatt_subscribe initialSubState 0).1

/-- C5 scenario, step 1: first notification, key 0 pressed. -/
def c5step1 : SubState × List PositionEvent :=
  deliverNotification c5sub1 (some payloadA) 16

/-- C5 scenario, step 2: absent payload (unsubscribed signal). -/
def c5step2 : SubState × List PositionEvent :=
  deliverNotification c5step1.1 none 0

/-- C5 scenario, step 3: re-subscribe. -/
def c5sub2 : SubState := (bt_gatt_subscribe c5step2.1 0).1

/-- C5 scenario, step 4: first notification of the new subscription, with
key 0 still pressed. -/
def c5step3 : SubState × List PositionEvent :=
  deliverNotification c5sub2 (some payloadA) 16

/-- The concrete stack replies used by the C10 counterexample: scan stop
succeeds, no existing connection, `bt_conn_le_create` fails with -12
(-ENOMEM), the PHY update on the NULL handle fails with -22 (-EINVAL). -/
def c10inputs : EirInputs := ⟨0, none, -12, none, -22, 0, 0⟩

/-- The C10 counterexample run of the matched-advertisement arm. -/
def c10run : CentralState × List CentralAction :=
  split_central_eir_found_match ⟨none, none, initialSubState⟩ c10inputs

/-! ## Decoder lemmas -/

/-- Membership characterisation of `decode`. -/
theorem mem_decode (prev cur : List Nat) (e : PositionEvent) :
    e ∈ decode prev cur ↔
      ∃ i, i < 16 ∧ ∃ j, j < 8 ∧
        (cur.getD i 0 ^^^ prev.getD i 0).testBit j = true ∧
        e = ⟨i * 8 + j, (cur.getD i 0).testBit j⟩ := by
  simp only [decode, POSITION_STATE_DATA_LEN, List.mem_flatMap, List.mem_filterMap,
    List.mem_range, Option.ite_none_right_eq_some, Option.some.injEq]
  constructor
  · rintro ⟨i, hi, j, hj, hbit, heq⟩
    exact ⟨i, hi, j, hj, hbit, heq.symm⟩
  · rintro ⟨i, hi, j, hj, hbit, heq⟩
    exact ⟨i, hi, j, hj, hbit, heq.symm⟩

/-- Every element of the inner filterMap for byte `i` has a position in
`[i*8, i*8+8)`. -/
theorem inner_position_range (prev cur : List Nat) (i : Nat) (e : PositionEvent)
    (h : e ∈ (List.range 8).filterMap (fun j =>
      if (cur.getD i 0 ^^^ prev.getD i 0).testBit j then
        some (⟨i * 8 + j, (cur.getD i 0).testBit j⟩ : PositionEvent)
      else none)) :
    i * 8 ≤ e.position ∧ e.position < i * 8 + 8 := by
  simp only [List.mem_filterMap, List.mem_range, Option.ite_none_right_eq_some,
    Option.some.injEq] at h
  obtain ⟨j, hj, _, heq⟩ := h
  subst heq
  refine ⟨Nat.le_add_right _ _, ?_⟩
  show i * 8 + j < i * 8 + 8
  omega

/-- The decoder's output is strictly ascending in position. -/
theorem decode_sorted (prev cur : List Nat) :
    (decode prev cur).Pairwise (fun a b => a.position < b.position) := by
  rw [decode, List.pairwise_flatMap]
  constructor
  · intro i _
    apply List.Pairwise.filterMap _ _ (List.pairwise_lt_range 8)
    intro j j' hjj' b hb b' hb'
    simp only [Option.mem_def] at hb hb'
    split at hb
    · cases hb
      split at hb'
      · cases hb'
        simpa using hjj'
      · cases hb'
    · cases hb
  · apply (List.pairwise_lt_range _).imp
    intro a b hab x hx y hy
    have hxa := inner_position_range prev cur a x hx
    have hyb := inner_position_range prev cur b y hy
    omega

/-- C1: For every pair of 16-byte bitmaps, `decode` (and hence the
notification handler) emits exactly one event per differing bit position:
the event for byte `i`, bit `j` (position `i*8 + j`, pressed = bit `j` of
current byte `i`) is present iff the two bitmaps differ there; every
emitted event is of this shape; events are strictly ascending by position
(ascending byte, then bit, with no duplicates); the handler's event list
is `decode`; and decoding is deterministic. -/
theorem decode_correct (prev cur : List Nat)
    (hp : prev.length = POSITION_STATE_DATA_LEN)
    (hc : cur.length = POSITION_STATE_DATA_LEN) :
    (∀ i j, i < 16 → j < 8 →
      ((⟨i * 8 + j, (cur.getD i 0).testBit j⟩ : PositionEvent) ∈ decode prev cur ↔
        (cur.getD i 0).testBit j ≠ (prev.getD i 0).testBit j)) ∧
    (∀ e ∈ decode prev cur, ∃ i j, i < 16 ∧ j < 8 ∧
      e.position = i * 8 + j ∧ e.state = (cur.getD i 0).testBit j ∧
      (cur.getD i 0).testBit j ≠ (prev.getD i 0).testBit j) ∧
    (decode prev cur).Pairwise (fun a b => a.position < b.position) ∧
    (∀ vh len, (split_central_notify_func prev vh (some cur) len).events =
      decode prev cur) ∧
    decode prev cur = decode prev cur := by
  refine ⟨?_, ?_, decode_sorted prev cur, fun vh len => rfl, rfl⟩
  · intro i j hi hj
    rw [mem_decode]
    constructor
    · rintro ⟨i', hi', j', hj', hbit, heq⟩
      rw [PositionEvent.mk.injEq] at heq
      obtain ⟨hpos, -⟩ := heq
      have hii : i = i' ∧ j = j' := by omega
      obtain ⟨rfl, rfl⟩ := hii
      rw [Nat.testBit_xor] at hbit
      rcases hb : (cur.getD i 0).testBit j <;>
        rcases hb' : (prev.getD i 0).testBit j <;>
          simp_all
    · intro hne
      refine ⟨i, hi, j, hj, ?_, rfl⟩
      rw [Nat.testBit_xor]
      rcases hb : (cur.getD i 0).testBit j <;>
        rcases hb' : (prev.getD i 0).testBit j <;>
          simp_all
  · intro e he
    rw [mem_decode] at he
    obtain ⟨i, hi, j, hj, hbit, heq⟩ := he
    subst heq
    refine ⟨i, j, hi, hj, rfl, rfl, ?_⟩
    rw [Nat.testBit_xor] at hbit
    rcases hb : (cur.getD i 0).testBit j <;>
      rcases hb' : (prev.getD i 0).testBit j <;>
        simp_all

/-- Witness for C1 at `prev` = all-zero, `cur` = `payloadA`. -/
theorem decode_correct_witness :
    (List.replicate 16 0 : List Nat).length = POSITION_STATE_DATA_LEN ∧
    payloadA.length = POSITION_STATE_DATA_LEN ∧
    ((∀ i j, i < 16 → j < 8 →
      ((⟨i * 8 + j, (payloadA.getD i 0).testBit j⟩ : PositionEvent) ∈
          decode (List.replicate 16 0) payloadA ↔
        (payloadA.getD i 0).testBit j ≠
          ((List.replicate 16 0 : List Nat).getD i 0).testBit j)) ∧
    (∀ e ∈ decode (List.replicate 16 0) payloadA, ∃ i j, i < 16 ∧ j < 8 ∧
      e.position = i * 8 + j ∧ e.state = (payloadA.getD i 0).testBit j ∧
      (payloadA.getD i 0).testBit j ≠
        ((List.replicate 16 0 : List Nat).getD i 0).testBit j) ∧
    (decode (List.replicate 16 0) payloadA).Pairwise
      (fun a b => a.position < b.position) ∧
    (∀ vh len, (split_central_notify_func (List.replicate 16 0) vh
        (some payloadA) len).events = decode (List.replicate 16 0) payloadA) ∧
    decode (List.replicate 16 0) payloadA = decode (List.replicate 16 0) payloadA) :=
  ⟨rfl, rfl, decode_correct _ _ rfl rfl⟩

/-- C2: the handler never checks the payload length.  On a notification
whose length (17) differs from `POSITION_STATE_DATA_LEN`, the code still
diffs the first 16 bytes and emits a Position-Changed event, contradicting
the fail-closed behaviour the spec demands. -/
theorem notify_emits_despite_length_mismatch :
    payload17.length ≠ POSITION_STATE_DATA_LEN ∧
    (split_central_notify_func (List.replicate POSITION_STATE_DATA_LEN 0) 30
        (some payload17) payload17.length).events = [⟨0, true⟩] := by
  decide

/-- C3: with an attribute present, the service phase moves the start of
range to the matched handle + 1 (characteristic phase), and the
characteristic phase moves it to the matched handle + 2 (descriptor
phase); the end of range is unchanged. -/
theorem discovery_phase_ranges (p : DiscoverParams) (a : GattAttr)
    (derr serr : Int) (s : SubState) :
    (p.phase = DiscoverPhase.primary →
      (split_central_discovery_func p (some a) derr serr s).params =
        some ⟨.characteristic, a.handle + 1, p.endHandle⟩) ∧
    (p.phase = DiscoverPhase.characteristic →
      (split_central_discovery_func p (some a) derr serr s).params =
        some ⟨.descriptor, a.handle + 2, p.endHandle⟩) := by
  obtain ⟨ph, sh, eh⟩ := p
  constructor <;> rintro rfl <;> rfl

/-- Witness for C3: a service match at handle 10 gives phase-2 start 11; a
characteristic match at handle 20 gives phase-3 start 22. -/
theorem discovery_phase_ranges_witness :
    (split_central_discovery_func ⟨.primary, 1, 65535⟩ (some ⟨10, 11⟩) 0 0
        initialSubState).params = some ⟨.characteristic, 11, 65535⟩ ∧
    (split_central_discovery_func ⟨.characteristic, 11, 65535⟩ (some ⟨20, 21⟩) 0 0
        initialSubState).params = some ⟨.descriptor, 22, 65535⟩ :=
  ⟨(discovery_phase_ranges _ _ 0 0 initialSubState).1 rfl,
   (discovery_phase_ranges _ _ 0 0 initialSubState).2 rfl⟩

/-- C4 counterexample: when `bt_gatt_discover` fails (here with -5) during
the service-to-characteristic transition, the error is logged but
scanning is NOT restarted, contradicting the claimed fallback to
(re)scanning. -/
theorem discover_fail_no_rescan_cex :
    (split_central_discovery_func ⟨.primary, 1, 65535⟩ (some ⟨10, 11⟩) (-5) 0
        initialSubState).errorLogged = true ∧
    (split_central_discovery_func ⟨.primary, 1, 65535⟩ (some ⟨10, 11⟩) (-5) 0
        initialSubState).scanRestarted = false := by
  decide

/-- C4 (amended): for every failure to issue the attribute-walk request
during a discovery phase transition, the failure is logged and discovery
simply stops; scanning is not restarted. -/
theorem discover_fail_logged_not_rescanned (p : DiscoverParams) (a : GattAttr)
    (derr serr : Int) (s : SubState)
    (hph : p.phase = DiscoverPhase.primary ∨ p.phase = DiscoverPhase.characteristic)
    (herr : derr ≠ 0) :
    (split_central_discovery_func p (some a) derr serr s).discoverIssued = true ∧
    (split_central_discovery_func p (some a) derr serr s).errorLogged = true ∧
    (split_central_discovery_func p (some a) derr serr s).scanRestarted = false ∧
    (split_central_discovery_func p (some a) derr serr s).iter = GattIter.stop := by
  obtain ⟨ph, sh, eh⟩ := p
  rcases hph with h | h <;> cases h <;>
    simp [split_central_discovery_func, herr]

/-- Witness for the amended C4. -/
theorem discover_fail_logged_not_rescanned_witness :
    ((-5 : Int) ≠ 0) ∧
    ((split_central_discovery_func ⟨.primary, 1, 65535⟩ (some ⟨10, 11⟩) (-5) 0
        initialSubState).discoverIssued = true ∧
     (split_central_discovery_func ⟨.primary, 1, 65535⟩ (some ⟨10, 11⟩) (-5) 0
        initialSubState).errorLogged = true ∧
     (split_central_discovery_func ⟨.primary, 1, 65535⟩ (some ⟨10, 11⟩) (-5) 0
        initialSubState).scanRestarted = false ∧
     (split_central_discovery_func ⟨.primary, 1, 65535⟩ (some ⟨10, 11⟩) (-5) 0
        initialSubState).iter = GattIter.stop) :=
  ⟨by decide,
   discover_fail_logged_not_rescanned _ _ _ _ _ (Or.inl rfl) (by decide)⟩

/-- C5 counterexample: press key 0, receive the unsubscribed signal,
re-subscribe, and deliver the same bitmap again.  At the start of the new
subscription the stored bitmap is NOT all-zero, and the first
notification (key 0 still held) yields no event, whereas a diff against a
zero bitmap would yield the event for position 0. -/
theorem resub_baseline_not_zero_cex :
    c5sub2.active = true ∧
    c5sub2.positionState ≠ List.replicate POSITION_STATE_DATA_LEN 0 ∧
    c5step3.2 = [] ∧
    decode (List.replicate POSITION_STATE_DATA_LEN 0) payloadA = [⟨0, true⟩] := by
  decide

/-- C5 (amended): the stored Key-State Bitmap is zero only at boot and is
never reset when a new subscription begins: subscribing leaves it
untouched, and the first notification after a (re-)subscription is diffed
against the persisted bitmap of the previous subscription. -/
theorem bitmap_persists_across_subscriptions (s : SubState) (stackErr : Int)
    (d : List Nat) (len : Nat)
    (h : ((bt_gatt_subscribe s stackErr).1).active = true) :
    ((bt_gatt_subscribe s stackErr).1).positionState = s.positionState ∧
    (deliverNotification (bt_gatt_subscribe s stackErr).1 (some d) len).2 =
      decode s.positionState d := by
  by_cases ha : s.active
  · constructor
    · simp [bt_gatt_subscribe, ha]
    · simp [bt_gatt_subscribe, ha, deliverNotification, split_central_notify_func]
  · by_cases he : stackErr = 0
    · constructor <;>
        simp [bt_gatt_subscribe, ha, he, deliverNotification,
          split_central_notify_func]
    · exfalso
      simp [bt_gatt_subscribe, ha, he] at h

/-- Witness for the amended C5. -/
theorem bitmap_persists_across_subscriptions_witness :
    ((bt_gatt_subscribe initialSubState 0).1.active = true) ∧
    ((bt_gatt_subscribe initialSubState 0).1.positionState =
        initialSubState.positionState ∧
     (deliverNotification (bt_gatt_subscribe initialSubState 0).1
        (some payloadA) 16).2 = decode initialSubState.positionState payloadA) :=
  ⟨by decide, bitmap_persists_across_subscriptions _ _ _ _ (by decide)⟩

/-- C6: a notification callback with an absent payload while subscribed
emits no event, resets the record's value handle to 0 and ends the
subscription; a subsequent payload delivery on the handle is not
processed and produces no events. -/
theorem absent_payload_clears_subscription (s : SubState) (len len2 : Nat)
    (d : List Nat) (h : s.active = true) :
    (deliverNotification s none len).2 = [] ∧
    (deliverNotification s none len).1.valueHandle = 0 ∧
    (deliverNotification s none len).1.active = false ∧
    deliverNotification (deliverNotification s none len).1 (some d) len2 =
      ((deliverNotification s none len).1, []) := by
  simp [deliverNotification, split_central_notify_func, h]

/-- Witness for C6. -/
theorem absent_payload_clears_subscription_witness :
    ((⟨List.replicate 16 0, 25, 40, true⟩ : SubState).active = true) ∧
    ((deliverNotification ⟨List.replicate 16 0, 25, 40, true⟩ none 0).2 = [] ∧
     (deliverNotification ⟨List.replicate 16 0, 25, 40, true⟩ none 0).1.valueHandle = 0 ∧
     (deliverNotification ⟨List.replicate 16 0, 25, 40, true⟩ none 0).1.active = false ∧
     deliverNotification
        (deliverNotification ⟨List.replicate 16 0, 25, 40, true⟩ none 0).1
        (some payloadA) 16 =
      ((deliverNotification ⟨List.replicate 16 0, 25, 40, true⟩ none 0).1, [])) :=
  ⟨rfl, absent_payload_clears_subscription _ 0 16 payloadA rfl⟩

/-- C7: subscribing is idempotent: with the subscription already active,
the stack reports `-EALREADY` and keeps the single existing subscription;
the code treats this as success (`[SUBSCRIBED]` logged, no error logged),
and the subscription state is unchanged except for recording the CCC
handle — no second subscribed transition and only one decode stream. -/
theorem subscribe_idempotent (p : DiscoverParams) (a : GattAttr)
    (derr serr : Int) (s : SubState)
    (hph : p.phase = DiscoverPhase.descriptor) (h : s.active = true) :
    bt_gatt_subscribe {s with cccHandle := a.handle} serr =
      ({s with cccHandle := a.handle}, -EALREADY) ∧
    (split_central_discovery_func p (some a) derr serr s).errorLogged = false ∧
    (split_central_discovery_func p (some a) derr serr s).subscribedLogged = true ∧
    (split_central_discovery_func p (some a) derr serr s).sub =
      {s with cccHandle := a.handle} := by
  obtain ⟨ph, sh, eh⟩ := p
  cases hph
  refine ⟨by simp [bt_gatt_subscribe, h], ?_, ?_, ?_⟩ <;>
    simp [split_central_discovery_func, bt_gatt_subscribe, h, EALREADY]

/-- Witness for C7. -/
theorem subscribe_idempotent_witness :
    ((⟨DiscoverPhase.descriptor, 22, 65535⟩ : DiscoverParams).phase =
        DiscoverPhase.descriptor ∧
     (⟨List.replicate 16 0, 25, 0, true⟩ : SubState).active = true) ∧
    (bt_gatt_subscribe ⟨List.replicate 16 0, 25, 40, true⟩ 0 =
      ((⟨List.replicate 16 0, 25, 40, true⟩ : SubState), -EALREADY) ∧
     (split_central_discovery_func ⟨DiscoverPhase.descriptor, 22, 65535⟩
        (some ⟨40, 41⟩) 0 0 ⟨List.replicate 16 0, 25, 0, true⟩).errorLogged = false ∧
     (split_central_discovery_func ⟨DiscoverPhase.descriptor, 22, 65535⟩
        (some ⟨40, 41⟩) 0 0 ⟨List.replicate 16 0, 25, 0, true⟩).subscribedLogged = true ∧
     (split_central_discovery_func ⟨DiscoverPhase.descriptor, 22, 65535⟩
        (some ⟨40, 41⟩) 0 0 ⟨List.replicate 16 0, 25, 0, true⟩).sub =
      (⟨List.replicate 16 0, 25, 40, true⟩ : SubState)) :=
  ⟨⟨rfl, rfl⟩,
   subscribe_idempotent ⟨DiscoverPhase.descriptor, 22, 65535⟩ ⟨40, 41⟩ 0 0
     ⟨List.replicate 16 0, 25, 0, true⟩ rfl rfl⟩

/-- C8: a disconnect callback for a handle other than the tracked one
changes nothing: the tracked connection, the discovery cursor and the
subscription record are all untouched and no action (in particular no
scan restart) is taken. -/
theorem stale_disconnect_no_change (st : CentralState) (conn : Nat)
    (h : st.defaultConn ≠ some conn) :
    split_central_disconnected st conn = (st, []) := by
  simp [split_central_disconnected, h]

/-- Witness for C8. -/
theorem stale_disconnect_no_change_witness :
    ((⟨some 1, none, initialSubState⟩ : CentralState).defaultConn ≠ some 2) ∧
    split_central_disconnected ⟨some 1, none, initialSubState⟩ 2 =
      (⟨some 1, none, initialSubState⟩, []) :=
  ⟨by decide, stale_disconnect_no_change _ 2 (by decide)⟩

/-- C9: a connect completion reporting failure, and a disconnect of the
currently tracked handle, both release the tracked handle (set it to
none) and restart scanning. -/
theorem release_and_rescan (st st2 : CentralState) (conn conn2 : Nat)
    (connErr : Nat) (serr derr : Int)
    (h1 : connErr ≠ 0) (h2 : st2.defaultConn = some conn2) :
    (split_central_connected st conn connErr serr derr).1.defaultConn = none ∧
    CentralAction.scanStart ∈ (split_central_connected st conn connErr serr derr).2 ∧
    (split_central_disconnected st2 conn2).1.defaultConn = none ∧
    CentralAction.scanStart ∈ (split_central_disconnected st2 conn2).2 := by
  refine ⟨?_, ?_, ?_, ?_⟩ <;>
    simp [split_central_connected, split_central_disconnected, h1, h2]

/-- Witness for C9. -/
theorem release_and_rescan_witness :
    ((1 : Nat) ≠ 0 ∧
     (⟨some 7, none, initialSubState⟩ : CentralState).defaultConn = some 7) ∧
    ((split_central_connected ⟨some 3, none, initialSubState⟩ 3 1 0 0).1.defaultConn =
        none ∧
     CentralAction.scanStart ∈
        (split_central_connected ⟨some 3, none, initialSubState⟩ 3 1 0 0).2 ∧
     (split_central_disconnected ⟨some 7, none, initialSubState⟩ 7).1.defaultConn =
        none ∧
     CentralAction.scanStart ∈
        (split_central_disconnected ⟨some 7, none, initialSubState⟩ 7).2) :=
  ⟨⟨by decide, rfl⟩, release_and_rescan _ _ 3 7 1 0 0 (by decide) rfl⟩

/-- C10 counterexample: with scan stop succeeding, no existing connection,
`bt_conn_le_create` failing (-12) and the PHY update failing (-22), the
recorded call sequence restarts scanning (action 5) BEFORE issuing the
PHY update on the NULL tracked handle (action 6) — the PHY update is not
issued before scanning is resumed, refuting the claimed ordering (the
rest of the claim, that the PHY update is still issued on a null handle,
does hold). -/
theorem phy_update_after_scan_cex :
    c10run.2 = [.scanStop, .connLookup, .connCreate, .logError, .scanStart,
                .phyUpdate none, .logError, .scanStart] ∧
    CentralAction.scanStart ∈ c10run.2.take 5 ∧
    CentralAction.phyUpdate none ∉ c10run.2.take 5 ∧
    CentralAction.phyUpdate none ∈ c10run.2 ∧
    c10run.1.defaultConn = none := by
  decide

/-- C10 (amended): when connection creation fails in the advertisement
handler, scanning is resumed first, and the PHY-update request is then
nevertheless still issued on the tracked connection handle, which is null
at that point (the PHY update is not conditioned on connect initiation
having succeeded). -/
theorem create_fail_phy_on_null (st : CentralState) (inp : EirInputs)
    (h1 : inp.scanStopErr = 0) (h2 : inp.existingConn = none)
    (h3 : inp.createErr ≠ 0) :
    (split_central_eir_found_match st inp).1.defaultConn = none ∧
    (split_central_eir_found_match st inp).2.take 6 =
      [.scanStop, .connLookup, .connCreate, .logError, .scanStart,
       .phyUpdate none] := by
  by_cases hp : inp.phyErr = 0 <;>
    simp [split_central_eir_found_match, h1, h2, h3, hp]

/-- Witness for the amended C10. -/
theorem create_fail_phy_on_null_witness :
    (c10inputs.scanStopErr = 0 ∧ c10inputs.existingConn = none ∧
     c10inputs.createErr ≠ 0) ∧
    ((split_central_eir_found_match ⟨none, none, initialSubState⟩
        c10inputs).1.defaultConn = none ∧
     (split_central_eir_found_match ⟨none, none, initialSubState⟩
        c10inputs).2.take 6 =
      [.scanStop, .connLookup, .connCreate, .logError, .scanStart,
       .phyUpdate none]) :=
  ⟨⟨rfl, rfl, by decide⟩, create_fail_phy_on_null _ _ rfl rfl (by decide)⟩

end ZmkSplitCentral
